import Mathlib

/-!
Verification of the Echelon frontend against its specification.

The embedding below translates, directly from the JavaScript sources, the
parts of the program the claims are about:

* `src/frontend/src/services/api.js` — the axios instance, its request and
  response interceptors, and the endpoint wrapper functions;
* `src/unnamed/part_005`, `src/unnamed/part_006` — the two alternative API
  service modules (accounts / campaigns / recommendations wrappers);
* `src/unnamed/part_001` (CampaignDetails) and `src/unnamed/part_002`
  (Dashboard) — the pages that set hard-coded simulated data;
* `src/unnamed/part_003` (Recommendations) — the error-alert rendering;
* `src/frontend/src/pages/ShoppingCampaignCreate.js` and the
  PerformanceMaxCreate component concatenated into
  `src/frontend/src/pages/MerchantFeedDashboard.js` — the wizard form
  validation, the asset add/remove handlers and the product pagination.

Decimal number literals of the source (500.00, 320.45, ...) are embedded as
rationals, so 320.45 becomes (32045 : ℚ) / 100.
-/

namespace Echelon

/-- HTTP methods used by the axios wrappers (`api.get`, `api.post`,
`api.put`, `api.delete`, `api.patch`). -/
inductive Method where
  | get
  | post
  | put
  | delete
  | patch
deriving DecidableEq, Repr

/-- An outbound HTTP request as issued by a service-layer wrapper:
the method and the url string the wrapper builds. -/
structure Req where
  method : Method
  url : String
deriving DecidableEq, Repr

/-- Request headers, as far as the interceptors touch them: the
`Content-Type` default and the `Authorization` header. -/
structure Headers where
  contentType : Option String
  authorization : Option String
deriving DecidableEq, Repr

/-- An axios request config. `retry` embeds the `_retry` flag the response
interceptor of `api.js` sets on `error.config`. -/
structure AxiosConfig where
  method : Method
  url : String
  headers : Headers
  retry : Bool
deriving DecidableEq, Repr

/-- Local storage as far as `api.js` reads it: the `authToken` and
`refreshToken` keys (absent key = `none`). -/
structure Store where
  authToken : Option String
  refreshToken : Option String
deriving DecidableEq, Repr

/-- The request interceptor of `api.js` (`api.interceptors.request.use`):
read `authToken` from local storage; if a token exists set
`config.headers.Authorization = Bearer <token>`; return the config. -/
def requestInterceptorFulfilled (authToken : Option String)
    (config : AxiosConfig) : AxiosConfig :=
  match authToken with
  | some token =>
      { config with
        headers := { config.headers with
                     authorization := some ("Bearer " ++ token) } }
  | none => config

/-- An error handed to the response interceptor: the status of the failed
response (`error.response?.status`, `none` when there was no response) and
the original request config (`error.config`). -/
structure ApiError where
  status : Option Nat
  config : AxiosConfig
deriving DecidableEq, Repr

/-- What the response interceptor of `api.js` finally does with the error:
reject the promise with an error, or re-issue a request (`return
api(originalRequest)`). -/
inductive InterceptResult where
  | reject (error : ApiError)
  | resend (request : AxiosConfig)
deriving DecidableEq, Repr

/-- The full effect of one run of the response interceptor's rejected
branch: the local storage afterwards, whether it navigated to `/login`,
the refresh call it issued (`axios.post` of `/auth/refresh` with the
stored refresh token), if any, and the returned promise. -/
structure InterceptOutcome where
  store : Store
  redirectedToLogin : Bool
  refreshCall : Option (Req × String)
  result : InterceptResult
deriving DecidableEq, Repr

/-- The request `axios.post` issues to refresh the token, together with the
`refresh_token` value of its JSON body. -/
def authRefreshCall (refreshToken : String) : Req × String :=
  (⟨Method.post, "/auth/refresh"⟩, refreshToken)

/-- The response interceptor of `api.js` (`api.interceptors.response.use`,
rejected branch), embedded with explicit state passing.  `store` is local
storage on entry; `refreshOutcome` is the outcome of the `/auth/refresh`
call if one is made (`Except.ok access_token`, or `Except.error ()` when
that call throws).  Mirrors the source: on a 401 whose config is not yet
marked `_retry`, mark it (a mutation of the shared `error.config` object,
embedded by rebinding `error`), read the refresh token, and when one exists
post it to `/auth/refresh`; on success store the new access token, set the
`Authorization` header and re-issue the original request; when the refresh
call throws, clear both tokens and redirect to `/login`; in every path that
does not re-issue, return `Promise.reject(error)`. -/
def responseInterceptorRejected (store : Store)
    (refreshOutcome : Except Unit String) (error : ApiError) :
    InterceptOutcome :=
  if error.status = some 401 ∧ error.config.retry = false then
    let originalRequest : AxiosConfig := { error.config with retry := true }
    let error : ApiError := { error with config := originalRequest }
    match store.refreshToken with
    | some refreshToken =>
        match refreshOutcome with
        | Except.ok access_token =>
            { store := { store with authToken := some access_token }
              redirectedToLogin := false
              refreshCall := some (authRefreshCall refreshToken)
              result := InterceptResult.resend
                { originalRequest with
                  headers := { originalRequest.headers with
                               authorization :=
                                 some ("Bearer " ++ access_token) } } }
        | Except.error _ =>
            { store := { authToken := none, refreshToken := none }
              redirectedToLogin := true
              refreshCall := some (authRefreshCall refreshToken)
              result := InterceptResult.reject error }
    | none =>
        { store := store
          redirectedToLogin := false
          refreshCall := none
          result := InterceptResult.reject error }
  else
    { store := store
      redirectedToLogin := false
      refreshCall := none
      result := InterceptResult.reject error }

/-- The config the interceptor re-issues after a successful refresh: the
original config, marked retried, with the refreshed bearer token. -/
def retriedConfig (config : AxiosConfig) (access_token : String) :
    AxiosConfig :=
  { config with
    retry := true
    headers := { config.headers with
                 authorization := some ("Bearer " ++ access_token) } }

namespace api_js

/-- `campaigns` wrapper object of `src/frontend/src/services/api.js`. -/
def campaigns.getAllCampaigns (accountId : String) : Req :=
  ⟨Method.get, "/campaigns?account_id=" ++ accountId⟩

def campaigns.getCampaign (campaignId : String) : Req :=
  ⟨Method.get, "/campaigns/" ++ campaignId⟩

def campaigns.createCampaign : Req :=
  ⟨Method.post, "/campaigns"⟩

def campaigns.updateCampaign (campaignId : String) : Req :=
  ⟨Method.put, "/campaigns/" ++ campaignId⟩

def campaigns.deleteCampaign (campaignId : String) : Req :=
  ⟨Method.delete, "/campaigns/" ++ campaignId⟩

def campaigns.pauseCampaign (campaignId : String) : Req :=
  ⟨Method.put, "/campaigns/" ++ campaignId ++ "/pause"⟩

def campaigns.enableCampaign (campaignId : String) : Req :=
  ⟨Method.put, "/campaigns/" ++ campaignId ++ "/enable"⟩

/-- `merchant` wrapper object of `src/frontend/src/services/api.js`. -/
def merchant.getAccounts : Req :=
  ⟨Method.get, "/merchants"⟩

def merchant.getAccountSummary (merchantId : String) : Req :=
  ⟨Method.get, "/merchants/" ++ merchantId⟩

def merchant.getFeeds (merchantId : String) : Req :=
  ⟨Method.get, "/merchants/" ++ merchantId ++ "/feeds"⟩

/-- `merchant.getProducts(merchantId, page, limit, status)`: builds the url
with the page and limit query parameters and appends `&status=` exactly when
a status is given. -/
def merchant.getProducts (merchantId : String) (page limit : Nat)
    (status : Option String) : Req :=
  let url := "/merchants/" ++ merchantId ++ "/products?page=" ++
    toString page ++ "&limit=" ++ toString limit
  match status with
  | some s => ⟨Method.get, url ++ "&status=" ++ s⟩
  | none => ⟨Method.get, url⟩

def merchant.getIssues (merchantId : String) : Req :=
  ⟨Method.get, "/merchants/" ++ merchantId ++ "/issues"⟩

def merchant.uploadFeed (merchantId : String) : Req :=
  ⟨Method.post, "/merchants/" ++ merchantId ++ "/feeds/upload"⟩

/-- `ecommerce` wrapper object of `src/frontend/src/services/api.js`. -/
def ecommerce.getPerformance (accountId : String) : Req :=
  ⟨Method.get, "/ecommerce/performance?account_id=" ++ accountId⟩

def ecommerce.getProducts (accountId : String) : Req :=
  ⟨Method.get, "/ecommerce/products?account_id=" ++ accountId⟩

def ecommerce.createShoppingCampaign : Req :=
  ⟨Method.post, "/ecommerce/shopping-campaigns"⟩

def ecommerce.createPerformanceMaxCampaign : Req :=
  ⟨Method.post, "/ecommerce/pmax-campaigns"⟩

/-- `dashboard` wrapper object of `src/frontend/src/services/api.js`. -/
def dashboard.getSummary (accountId : String) : Req :=
  ⟨Method.get, "/dashboard/summary?account_id=" ++ accountId⟩

def dashboard.getPerformanceMetrics (accountId startDate endDate : String) :
    Req :=
  ⟨Method.get, "/dashboard/performance?account_id=" ++ accountId ++
    "&start_date=" ++ startDate ++ "&end_date=" ++ endDate⟩

def dashboard.getTopPerformers (accountId metric : String) : Req :=
  ⟨Method.get, "/dashboard/top-performers?account_id=" ++ accountId ++
    "&metric=" ++ metric⟩

/-- `optimization` wrapper object of `src/frontend/src/services/api.js`. -/
def optimization.getSuggestions (accountId : String) : Req :=
  ⟨Method.get, "/optimization/suggestions?account_id=" ++ accountId⟩

def optimization.applySuggestion (suggestionId : String) : Req :=
  ⟨Method.post, "/optimization/suggestions/" ++ suggestionId ++ "/apply"⟩

def optimization.dismissSuggestion (suggestionId : String) : Req :=
  ⟨Method.post, "/optimization/suggestions/" ++ suggestionId ++ "/dismiss"⟩

def optimization.generateAdSuggestions (campaignId : String) : Req :=
  ⟨Method.get, "/optimization/ads/suggestions?campaign_id=" ++ campaignId⟩

end api_js

namespace part_005

/-- `authApi` of `src/unnamed/part_005`. -/
def authApi.getAccounts : Req :=
  ⟨Method.get, "/accounts"⟩

/-- `campaignApi` of `src/unnamed/part_005`. -/
def campaignApi.getCampaigns (accountId : String) : Req :=
  ⟨Method.get, "/campaigns?account_id=" ++ accountId⟩

def campaignApi.getCampaignDetails (accountId campaignId : String) : Req :=
  ⟨Method.get, "/campaigns/" ++ campaignId ++ "?account_id=" ++ accountId⟩

/-- `recommendationsApi` of `src/unnamed/part_005`. -/
def recommendationsApi.getAccountRecommendations (accountId : String) : Req :=
  ⟨Method.get, "/recommendations?account_id=" ++ accountId⟩

def recommendationsApi.getCampaignRecommendations
    (accountId campaignId : String) : Req :=
  ⟨Method.get, "/recommendations/" ++ campaignId ++ "?account_id=" ++ accountId⟩

def recommendationsApi.applyRecommendations : Req :=
  ⟨Method.post, "/apply-recommendations"⟩

end part_005

namespace part_006

/-- `apiService.accounts` of `src/unnamed/part_006`. -/
def accounts.getAll : Req :=
  ⟨Method.get, "/accounts"⟩

def accounts.getById (id : String) : Req :=
  ⟨Method.get, "/accounts/" ++ id⟩

/-- `apiService.campaigns` of `src/unnamed/part_006`. -/
def campaigns.getAll (accountId : String) : Req :=
  ⟨Method.get, "/accounts/" ++ accountId ++ "/campaigns"⟩

def campaigns.getById (accountId campaignId : String) : Req :=
  ⟨Method.get, "/accounts/" ++ accountId ++ "/campaigns/" ++ campaignId⟩

def campaigns.create (accountId : String) : Req :=
  ⟨Method.post, "/accounts/" ++ accountId ++ "/campaigns"⟩

def campaigns.update (accountId campaignId : String) : Req :=
  ⟨Method.put, "/accounts/" ++ accountId ++ "/campaigns/" ++ campaignId⟩

def campaigns.delete (accountId campaignId : String) : Req :=
  ⟨Method.delete, "/accounts/" ++ accountId ++ "/campaigns/" ++ campaignId⟩

def campaigns.updateStatus (accountId campaignId : String) : Req :=
  ⟨Method.patch,
    "/accounts/" ++ accountId ++ "/campaigns/" ++ campaignId ++ "/status"⟩

/-- `apiService.recommendations` of `src/unnamed/part_006`. -/
def recommendations.getForAccount (accountId : String) : Req :=
  ⟨Method.get, "/accounts/" ++ accountId ++ "/recommendations"⟩

def recommendations.getForCampaign (accountId campaignId : String) : Req :=
  ⟨Method.get,
    "/accounts/" ++ accountId ++ "/campaigns/" ++ campaignId ++
      "/recommendations"⟩

def recommendations.apply (accountId : String) : Req :=
  ⟨Method.post, "/accounts/" ++ accountId ++ "/recommendations/apply"⟩

def recommendations.dismiss (accountId : String) : Req :=
  ⟨Method.post, "/accounts/" ++ accountId ++ "/recommendations/dismiss"⟩

/-- `apiService.adGroups` of `src/unnamed/part_006`. -/
def adGroups.getAll (accountId campaignId : String) : Req :=
  ⟨Method.get,
    "/accounts/" ++ accountId ++ "/campaigns/" ++ campaignId ++ "/ad_groups"⟩

def adGroups.getById (accountId campaignId adGroupId : String) : Req :=
  ⟨Method.get,
    "/accounts/" ++ accountId ++ "/campaigns/" ++ campaignId ++
      "/ad_groups/" ++ adGroupId⟩

def adGroups.create (accountId campaignId : String) : Req :=
  ⟨Method.post,
    "/accounts/" ++ accountId ++ "/campaigns/" ++ campaignId ++ "/ad_groups"⟩

def adGroups.update (accountId campaignId adGroupId : String) : Req :=
  ⟨Method.put,
    "/accounts/" ++ accountId ++ "/campaigns/" ++ campaignId ++
      "/ad_groups/" ++ adGroupId⟩

def adGroups.delete (accountId campaignId adGroupId : String) : Req :=
  ⟨Method.delete,
    "/accounts/" ++ accountId ++ "/campaigns/" ++ campaignId ++
      "/ad_groups/" ++ adGroupId⟩

/-- `apiService.performance` of `src/unnamed/part_006` (the date range goes
through axios `params`, leaving the url as written here). -/
def performance.getAccountSummary (accountId : String) : Req :=
  ⟨Method.get, "/accounts/" ++ accountId ++ "/performance"⟩

def performance.getCampaignPerformance (accountId campaignId : String) :
    Req :=
  ⟨Method.get,
    "/accounts/" ++ accountId ++ "/campaigns/" ++ campaignId ++
      "/performance"⟩

end part_006

/-- Every request the service layers issue against the documented REST
surface for accounts, campaigns, recommendations and merchant feeds, with the
path parameters left free: the `campaigns` and `merchant` wrappers of
`api.js`, the three wrapper objects of `part_005`, and the `accounts`,
`campaigns` and `recommendations` wrappers of `part_006`. -/
def serviceRequests (accountId campaignId merchantId : String)
    (page limit : Nat) (status : Option String) : List Req :=
  [ api_js.campaigns.getAllCampaigns accountId
  , api_js.campaigns.getCampaign campaignId
  , api_js.campaigns.createCampaign
  , api_js.campaigns.updateCampaign campaignId
  , api_js.campaigns.deleteCampaign campaignId
  , api_js.campaigns.pauseCampaign campaignId
  , api_js.campaigns.enableCampaign campaignId
  , api_js.merchant.getAccounts
  , api_js.merchant.getAccountSummary merchantId
  , api_js.merchant.getFeeds merchantId
  , api_js.merchant.getProducts merchantId page limit status
  , api_js.merchant.getIssues merchantId
  , api_js.merchant.uploadFeed merchantId
  , part_005.authApi.getAccounts
  , part_005.campaignApi.getCampaigns accountId
  , part_005.campaignApi.getCampaignDetails accountId campaignId
  , part_005.recommendationsApi.getAccountRecommendations accountId
  , part_005.recommendationsApi.getCampaignRecommendations
      accountId campaignId
  , part_005.recommendationsApi.applyRecommendations
  , part_006.accounts.getAll
  , part_006.accounts.getById accountId
  , part_006.campaigns.getAll accountId
  , part_006.campaigns.getById accountId campaignId
  , part_006.campaigns.create accountId
  , part_006.campaigns.update accountId campaignId
  , part_006.campaigns.delete accountId campaignId
  , part_006.campaigns.updateStatus accountId campaignId
  , part_006.recommendations.getForAccount accountId
  , part_006.recommendations.getForCampaign accountId campaignId
  , part_006.recommendations.apply accountId
  , part_006.recommendations.dismiss accountId ]

/-- The service-layer requests that do not use GET or POST: the campaign
update, delete, pause, enable and status-update wrappers. -/
def nonGetPostRequests (accountId campaignId : String) : List Req :=
  [ api_js.campaigns.updateCampaign campaignId
  , api_js.campaigns.deleteCampaign campaignId
  , api_js.campaigns.pauseCampaign campaignId
  , api_js.campaigns.enableCampaign campaignId
  , part_006.campaigns.update accountId campaignId
  , part_006.campaigns.delete accountId campaignId
  , part_006.campaigns.updateStatus accountId campaignId ]

/-- Every request the service layers issue against the domain entities
(Account, Campaign, AdGroup, Budget, Recommendation, MerchantAccount,
ProductFeed, Product, ProductIssue), with the path parameters left free:
the `campaigns`, `ecommerce`, `merchant`, `dashboard` and `optimization`
wrappers of `api.js`, the three wrapper objects of `part_005`, and the
`accounts`, `campaigns`, `adGroups`, `recommendations` and `performance`
wrappers of `part_006`. -/
def entityRequests (accountId campaignId merchantId adGroupId
    suggestionId startDate endDate metric : String) (page limit : Nat)
    (status : Option String) : List Req :=
  [ api_js.campaigns.getAllCampaigns accountId
  , api_js.campaigns.getCampaign campaignId
  , api_js.campaigns.createCampaign
  , api_js.campaigns.updateCampaign campaignId
  , api_js.campaigns.deleteCampaign campaignId
  , api_js.campaigns.pauseCampaign campaignId
  , api_js.campaigns.enableCampaign campaignId
  , api_js.ecommerce.getPerformance accountId
  , api_js.ecommerce.getProducts accountId
  , api_js.ecommerce.createShoppingCampaign
  , api_js.ecommerce.createPerformanceMaxCampaign
  , api_js.merchant.getAccounts
  , api_js.merchant.getAccountSummary merchantId
  , api_js.merchant.getFeeds merchantId
  , api_js.merchant.getProducts merchantId page limit status
  , api_js.merchant.getIssues merchantId
  , api_js.merchant.uploadFeed merchantId
  , api_js.dashboard.getSummary accountId
  , api_js.dashboard.getPerformanceMetrics accountId startDate endDate
  , api_js.dashboard.getTopPerformers accountId metric
  , api_js.optimization.getSuggestions accountId
  , api_js.optimization.applySuggestion suggestionId
  , api_js.optimization.dismissSuggestion suggestionId
  , api_js.optimization.generateAdSuggestions campaignId
  , part_005.authApi.getAccounts
  , part_005.campaignApi.getCampaigns accountId
  , part_005.campaignApi.getCampaignDetails accountId campaignId
  , part_005.recommendationsApi.getAccountRecommendations accountId
  , part_005.recommendationsApi.getCampaignRecommendations
      accountId campaignId
  , part_005.recommendationsApi.applyRecommendations
  , part_006.accounts.getAll
  , part_006.accounts.getById accountId
  , part_006.campaigns.getAll accountId
  , part_006.campaigns.getById accountId campaignId
  , part_006.campaigns.create accountId
  , part_006.campaigns.update accountId campaignId
  , part_006.campaigns.delete accountId campaignId
  , part_006.campaigns.updateStatus accountId campaignId
  , part_006.adGroups.getAll accountId campaignId
  , part_006.adGroups.getById accountId campaignId adGroupId
  , part_006.adGroups.create accountId campaignId
  , part_006.adGroups.update accountId campaignId adGroupId
  , part_006.adGroups.delete accountId campaignId adGroupId
  , part_006.recommendations.getForAccount accountId
  , part_006.recommendations.getForCampaign accountId campaignId
  , part_006.recommendations.apply accountId
  , part_006.recommendations.dismiss accountId
  , part_006.performance.getAccountSummary accountId
  , part_006.performance.getCampaignPerformance accountId campaignId ]

/-- The service-layer requests that mutate upstream domain entities:
campaign create (including shopping and Performance Max creation), update,
delete, pause, enable and status update, ad-group create, update and
delete, recommendation/suggestion apply and dismiss, and feed upload. -/
def entityMutatingRequests (accountId campaignId merchantId adGroupId
    suggestionId : String) : List Req :=
  [ api_js.campaigns.createCampaign
  , api_js.campaigns.updateCampaign campaignId
  , api_js.campaigns.deleteCampaign campaignId
  , api_js.campaigns.pauseCampaign campaignId
  , api_js.campaigns.enableCampaign campaignId
  , api_js.ecommerce.createShoppingCampaign
  , api_js.ecommerce.createPerformanceMaxCampaign
  , api_js.merchant.uploadFeed merchantId
  , api_js.optimization.applySuggestion suggestionId
  , api_js.optimization.dismissSuggestion suggestionId
  , part_005.recommendationsApi.applyRecommendations
  , part_006.campaigns.create accountId
  , part_006.campaigns.update accountId campaignId
  , part_006.campaigns.delete accountId campaignId
  , part_006.campaigns.updateStatus accountId campaignId
  , part_006.adGroups.create accountId campaignId
  , part_006.adGroups.update accountId campaignId adGroupId
  , part_006.adGroups.delete accountId campaignId adGroupId
  , part_006.recommendations.apply accountId
  , part_006.recommendations.dismiss accountId ]

/-- What the Recommendations page of `src/unnamed/part_003` renders at top
level: the loading indicator, the error alert, or the page content. -/
inductive RecommendationsView where
  | loadingView
  | errorAlert (message : String)
  | contentView
deriving DecidableEq, Repr

/-- The top-level render decision of the Recommendations component: while
`isLoading` show the progress view; else if the query failed show an error
`Alert` with `Error loading recommendations: ` and the error message; else
render the content.  `error` is `some message` when the recommendations
query failed. -/
def renderRecommendations (isLoading : Bool) (error : Option String) :
    RecommendationsView :=
  if isLoading then RecommendationsView.loadingView
  else
    match error with
    | some message =>
        RecommendationsView.errorAlert
          ("Error loading recommendations: " ++ message)
    | none => RecommendationsView.contentView

/-- An ad group row of the simulated campaign record of
`src/unnamed/part_001` (CampaignDetails). -/
structure AdGroupRow where
  id : String
  name : String
  status : String
  impressions : Nat
  clicks : Nat
  conversions : Nat
deriving DecidableEq, Repr

/-- A recommendation row of the simulated campaign record.  `recType`
embeds the JS field `type`. -/
structure RecommendationRow where
  id : String
  recType : String
  description : String
  impact : String
  status : String
deriving DecidableEq, Repr

/-- One dataset of the simulated performance-history chart.  The border and
background colors are the theme palette colors the component closes over. -/
structure ChartDataset where
  label : String
  data : List ℚ
  borderColor : String
  backgroundColor : String
  yAxisID : String
deriving DecidableEq, Repr

/-- The simulated campaign record `setCampaign` receives in
`src/unnamed/part_001`. -/
structure CampaignDetailsData where
  id : String
  name : String
  status : String
  budget : ℚ
  budgetType : String
  bidStrategy : String
  dailySpend : ℚ
  totalSpend : ℚ
  impressions : Nat
  clicks : Nat
  conversions : Nat
  ctr : ℚ
  cpc : ℚ
  conversionRate : ℚ
  costPerConversion : ℚ
  startDate : String
  endDate : Option String
  targetedLocations : List String
  adGroups : List AdGroupRow
  performanceHistoryLabels : List String
  performanceHistoryDatasets : List ChartDataset
  recommendations : List RecommendationRow
deriving DecidableEq, Repr

/-- `fetchCampaignDetails` of `src/unnamed/part_001`: after the simulated
delay it sets one hard-coded campaign record whose only input-dependent
field is `id := campaignId`.  `primaryMain` and `secondaryMain` are the
theme palette colors the closure reads for the chart datasets. -/
def fetchCampaignDetails (primaryMain secondaryMain : String)
    (campaignId : String) : CampaignDetailsData :=
  { id := campaignId
    name := "Summer Sale Campaign 2023"
    status := "ENABLED"
    budget := 500
    budgetType := "DAILY"
    bidStrategy := "MAXIMIZE_CONVERSIONS"
    dailySpend := (32045 : ℚ) / 100
    totalSpend := (458035 : ℚ) / 100
    impressions := 58490
    clicks := 3245
    conversions := 128
    ctr := (554 : ℚ) / 100
    cpc := (141 : ℚ) / 100
    conversionRate := (394 : ℚ) / 100
    costPerConversion := (3578 : ℚ) / 100
    startDate := "2023-06-01"
    endDate := none
    targetedLocations := ["United States", "Canada"]
    adGroups :=
      [ ⟨"ag1", "Summer Dresses", "ENABLED", 28340, 1854, 75⟩
      , ⟨"ag2", "Beach Accessories", "ENABLED", 16780, 845, 32⟩
      , ⟨"ag3", "Sunglasses Collection", "PAUSED", 13370, 546, 21⟩ ]
    performanceHistoryLabels :=
      ["Jun 1", "Jun 8", "Jun 15", "Jun 22", "Jun 29", "Jul 6", "Jul 13"]
    performanceHistoryDatasets :=
      [ ⟨"Clicks", [420, 480, 540, 495, 550, 620, 580],
          primaryMain, primaryMain, "y"⟩
      , ⟨"Conversions", [18, 21, 24, 19, 22, 26, 24],
          secondaryMain, secondaryMain, "y1"⟩ ]
    recommendations :=
      [ ⟨"rec1", "BID_ADJUSTMENT",
          "Increase bids for mobile devices by 15%", "High", "PENDING"⟩
      , ⟨"rec2", "KEYWORDS",
          "Add negative keywords: \"cheap\", \"discount\"", "Medium",
          "PENDING"⟩
      , ⟨"rec3", "AD_SCHEDULE",
          "Reduce bids during low-performing hours (2AM-5AM)", "Medium",
          "APPLIED"⟩ ] }

/-- A top-product row of the simulated dashboard data of
`src/unnamed/part_002`. -/
structure TopProduct where
  id : String
  name : String
  revenue : ℚ
  roas : ℚ
  units : Nat
deriving DecidableEq, Repr

/-- A campaign-performance row of the simulated dashboard data.
`campaignType` embeds the JS field `type`. -/
structure CampaignPerfRow where
  id : String
  name : String
  campaignType : String
  spend : ℚ
  revenue : ℚ
  roas : ℚ
deriving DecidableEq, Repr

/-- The simulated object `setDashboardData` receives in
`src/unnamed/part_002` (Dashboard). -/
structure DashboardData where
  accountHealth : Nat
  totalCampaigns : Nat
  activeCampaigns : Nat
  pendingRecommendations : Nat
  totalSpend : ℚ
  totalConversions : Nat
  costPerConversion : ℚ
  campaignsWithIssues : Nat
  revenue : ℚ
  roas : ℚ
  avgOrderValue : ℚ
  conversionRate : ℚ
  topProducts : List TopProduct
  campaignPerformance : List CampaignPerfRow
deriving DecidableEq, Repr

/-- `fetchDashboardData` of `src/unnamed/part_002`: the hard-coded dashboard
data object, taking no input at all. -/
def fetchDashboardData : DashboardData :=
  { accountHealth := 82
    totalCampaigns := 12
    activeCampaigns := 8
    pendingRecommendations := 5
    totalSpend := (1245032 : ℚ) / 100
    totalConversions := 345
    costPerConversion := (3609 : ℚ) / 100
    campaignsWithIssues := 2
    revenue := (6250050 : ℚ) / 100
    roas := (50199 : ℚ) / 100
    avgOrderValue := (18116 : ℚ) / 100
    conversionRate := (394 : ℚ) / 100
    topProducts :=
      [ ⟨"p1", "Premium Headphones", (1235075 : ℚ) / 100, 650, 65⟩
      , ⟨"p2", "Wireless Earbuds", (875025 : ℚ) / 100, 580, 125⟩
      , ⟨"p3", "Smart Watch", (768050 : ℚ) / 100, 480, 32⟩
      , ⟨"p4", "Fitness Tracker", (654020 : ℚ) / 100, 430, 59⟩ ]
    campaignPerformance :=
      [ ⟨"c1", "Shopping - Main Products", "SHOPPING",
          (458050 : ℚ) / 100, (2568075 : ℚ) / 100, 560⟩
      , ⟨"c2", "Performance Max - Store", "PERFORMANCE_MAX",
          (375025 : ℚ) / 100, (1895050 : ℚ) / 100, 505⟩
      , ⟨"c3", "Search - Brand Terms", "SEARCH",
          (124080 : ℚ) / 100, (987025 : ℚ) / 100, 795⟩
      , ⟨"c4", "Dynamic Remarketing", "DISPLAY",
          (287977 : ℚ) / 100, (799900 : ℚ) / 100, 278⟩ ] }

/-- The dashboard page's data state after the simulated load: the effect of
the `useEffect` of `src/unnamed/part_002`, which runs `fetchDashboardData`
exactly when an account is selected and stores its constant result. -/
def dashboardStateAfterLoad (account : Option String) :
    Option DashboardData :=
  match account with
  | some _ => some fetchDashboardData
  | none => none

/-- The `formData` of `ShoppingCampaignCreate`, with the fields its
`validateStep` reads plus the remaining form fields. -/
structure ShoppingFormData where
  campaignName : String
  merchantAccount : String
  budget : ℚ
  bidStrategy : String
  targetRoas : ℚ
  productSelection : String
  productGroups : List String
  excludedProductGroups : List String
  countries : List String
  languages : List String
  inventoryFilter : Bool
  includeGoogle : Bool
  includeSearch : Bool
  includeYouTube : Bool
  includeDisplay : Bool
  enableLocalInventory : Bool
  campaignPriority : String
deriving DecidableEq, Repr

/-- The `newErrors` object `validateStep` of `ShoppingCampaignCreate.js`
builds for a given step, as a list of key-message pairs in source order. -/
def shoppingStepErrors (form : ShoppingFormData) (step : Nat) :
    List (String × String) :=
  (if step = 0 then
    (if form.campaignName = ""
     then [("campaignName", "Campaign name is required")] else []) ++
    (if form.merchantAccount = ""
     then [("merchantAccount", "Merchant account is required")] else []) ++
    (if form.budget ≤ 0
     then [("budget", "Budget must be greater than 0")] else []) ++
    (if form.bidStrategy = "MAXIMIZE_CONVERSION_VALUE" ∧
        (form.targetRoas < 100 ∨ form.targetRoas > 10000)
     then [("targetRoas", "Target ROAS must be between 100% and 10,000%")]
     else [])
   else []) ++
  (if step = 1 then
    (if form.countries = []
     then [("countries", "At least one country is required")] else [])
   else [])

/-- `validateStep` of `ShoppingCampaignCreate.js`: sets `errors` to
`newErrors` and returns whether `newErrors` has no keys. -/
def shoppingValidateStep (form : ShoppingFormData) (step : Nat) : Bool :=
  (shoppingStepErrors form step).isEmpty

/-- `handleNext` of `ShoppingCampaignCreate.js`: increment the active step
exactly when `validateStep` of the current step succeeds. -/
def shoppingHandleNext (form : ShoppingFormData) (activeStep : Nat) : Nat :=
  if shoppingValidateStep form activeStep then activeStep + 1 else activeStep

/-- An image, logo or video asset of the Performance Max wizard.
`mediaType` embeds the JS field `type`. -/
structure MediaAsset where
  id : String
  mediaType : String
  name : String
  url : String
deriving DecidableEq, Repr

/-- A headline or description asset of the Performance Max wizard. -/
structure TextAsset where
  id : String
  text : String
deriving DecidableEq, Repr

/-- The `assets` object of the Performance Max wizard's form state. -/
structure Assets where
  images : List MediaAsset
  logos : List MediaAsset
  videos : List MediaAsset
  headlines : List TextAsset
  descriptions : List TextAsset
deriving DecidableEq, Repr

/-- `defaultAssets` of the PerformanceMaxCreate component. -/
def defaultAssets : Assets :=
  { images :=
      [ ⟨"img1", "MARKETING", "Product Lifestyle",
          "https://via.placeholder.com/800x600"⟩
      , ⟨"img2", "PRODUCT", "Product Catalog",
          "https://via.placeholder.com/600x600"⟩ ]
    logos :=
      [ ⟨"logo1", "LOGO", "Company Logo",
          "https://via.placeholder.com/300x100"⟩ ]
    videos := []
    headlines :=
      [ ⟨"h1", "Shop our new collection"⟩
      , ⟨"h2", "Free shipping on all orders"⟩
      , ⟨"h3", "High-quality products for less"⟩ ]
    descriptions :=
      [ ⟨"d1", "Find the perfect items for your home with our curated selection of premium products."⟩
      , ⟨"d2", "Shop now and get 10% off your first order. Limited time offer!"⟩ ] }

/-- The `formData` of the PerformanceMaxCreate component, with the fields
its `validateStep` reads plus the remaining form fields. -/
structure PMaxFormData where
  campaignName : String
  merchantAccount : String
  budget : ℚ
  bidStrategy : String
  targetRoas : ℚ
  finalUrl : String
  trackingTemplate : String
  countries : List String
  languages : List String
  conversionGoals : List String
  assets : Assets
  interests : List String
  demographics : List String
  remarketing : List String
  finalUrlSuffix : String
  createAssetGroup : Bool
deriving DecidableEq, Repr

/-- The `newErrors` object `validateStep` of the PerformanceMaxCreate
component builds for a given step, as key-message pairs in source order. -/
def pmaxStepErrors (form : PMaxFormData) (step : Nat) :
    List (String × String) :=
  (if step = 0 then
    (if form.campaignName = ""
     then [("campaignName", "Campaign name is required")] else []) ++
    (if form.merchantAccount = ""
     then [("merchantAccount", "Merchant account is required")] else []) ++
    (if form.budget ≤ 0
     then [("budget", "Budget must be greater than 0")] else []) ++
    (if form.bidStrategy = "MAXIMIZE_CONVERSION_VALUE" ∧
        (form.targetRoas < 100 ∨ form.targetRoas > 10000)
     then [("targetRoas", "Target ROAS must be between 100% and 10,000%")]
     else []) ++
    (if form.finalUrl = ""
     then [("finalUrl", "Final URL is required")] else [])
   else []) ++
  (if step = 1 then
    (if form.countries = []
     then [("countries", "At least one country is required")] else []) ++
    (if form.conversionGoals = []
     then [("conversionGoals", "At least one conversion goal is required")]
     else [])
   else []) ++
  (if step = 2 then
    (if form.assets.headlines.length < 3
     then [("headlines", "At least 3 headlines are required")] else []) ++
    (if form.assets.descriptions.length < 2
     then [("descriptions", "At least 2 descriptions are required")]
     else []) ++
    (if form.assets.images.length < 1
     then [("images", "At least 1 image is required")] else []) ++
    (if form.assets.logos.length < 1
     then [("logos", "At least 1 logo is required")] else [])
   else [])

/-- `validateStep` of the PerformanceMaxCreate component. -/
def pmaxValidateStep (form : PMaxFormData) (step : Nat) : Bool :=
  (pmaxStepErrors form step).isEmpty

/-- `handleNext` of the PerformanceMaxCreate component. -/
def pmaxHandleNext (form : PMaxFormData) (activeStep : Nat) : Nat :=
  if pmaxValidateStep form activeStep then activeStep + 1 else activeStep

/-- `addAsset` restricted to a text-asset list (`headlines`,
`descriptions`): append a new asset whose id is the asset-type string
followed by the new length. -/
def addTextAsset (l : List TextAsset) (typeName text : String) :
    List TextAsset :=
  l ++ [⟨typeName ++ toString (l.length + 1), text⟩]

/-- `addAsset` restricted to a media-asset list (`images`, `logos`). -/
def addMediaAsset (l : List MediaAsset) (typeName mediaType name url : String) :
    List MediaAsset :=
  l ++ [⟨typeName ++ toString (l.length + 1), mediaType, name, url⟩]

/-- `removeAsset` on a text-asset list: keep the assets whose id differs
from the given one (`filter(a => a.id !== assetId)`). -/
def removeTextAsset (l : List TextAsset) (assetId : String) :
    List TextAsset :=
  l.filter (fun a => a.id ≠ assetId)

/-- `removeAsset` on a media-asset list. -/
def removeMediaAsset (l : List MediaAsset) (assetId : String) :
    List MediaAsset :=
  l.filter (fun a => a.id ≠ assetId)

/-- `newHeadlines[index].text = value` of the headline / description
`onChange` handlers: overwrite the text of the asset at the index, leaving
the list unchanged when the index is out of range. -/
def setTextAt (l : List TextAsset) (index : Nat) (text : String) :
    List TextAsset :=
  match l, index with
  | [], _ => []
  | a :: rest, 0 => ⟨a.id, text⟩ :: rest
  | a :: rest, n + 1 => a :: setTextAt rest n text

/-- A user interaction with the asset step of the Performance Max wizard,
through its rendered controls: the add buttons/cards, the per-asset delete
buttons, and the text fields. -/
inductive AssetEvent where
  | addHeadline
  | addDescription
  | addImage
  | addLogo
  | removeHeadline (assetId : String)
  | removeDescription (assetId : String)
  | removeImage (assetId : String)
  | removeLogo (assetId : String)
  | editHeadline (index : Nat) (text : String)
  | editDescription (index : Nat) (text : String)
deriving DecidableEq, Repr

/-- One user interaction applied to the asset form state.  Add controls are
always enabled and call `addAsset` with the fixed payloads of the source.
A delete control exists only for an asset currently in its list and is
disabled when the list holds no more than 3 headlines, 2 descriptions,
1 image or 1 logo respectively; an interaction with a disabled or absent
control leaves the state unchanged.  Enabled deletes call `removeAsset`. -/
def assetStep (assets : Assets) (e : AssetEvent) : Assets :=
  match e with
  | AssetEvent.addHeadline =>
      { assets with headlines := addTextAsset assets.headlines "headlines" "" }
  | AssetEvent.addDescription =>
      { assets with
        descriptions := addTextAsset assets.descriptions "descriptions" "" }
  | AssetEvent.addImage =>
      { assets with
        images := addMediaAsset assets.images "images" "MARKETING"
          "New Image" "https://via.placeholder.com/800x450" }
  | AssetEvent.addLogo =>
      { assets with
        logos := addMediaAsset assets.logos "logos" "LOGO" "New Logo"
          "https://via.placeholder.com/300x300" }
  | AssetEvent.removeHeadline assetId =>
      if assets.headlines.length ≤ 3 ∨
          ¬ assetId ∈ assets.headlines.map TextAsset.id then assets
      else { assets with
             headlines := removeTextAsset assets.headlines assetId }
  | AssetEvent.removeDescription assetId =>
      if assets.descriptions.length ≤ 2 ∨
          ¬ assetId ∈ assets.descriptions.map TextAsset.id then assets
      else { assets with
             descriptions := removeTextAsset assets.descriptions assetId }
  | AssetEvent.removeImage assetId =>
      if assets.images.length ≤ 1 ∨
          ¬ assetId ∈ assets.images.map MediaAsset.id then assets
      else { assets with images := removeMediaAsset assets.images assetId }
  | AssetEvent.removeLogo assetId =>
      if assets.logos.length ≤ 1 ∨
          ¬ assetId ∈ assets.logos.map MediaAsset.id then assets
      else { assets with logos := removeMediaAsset assets.logos assetId }
  | AssetEvent.editHeadline index text =>
      { assets with headlines := setTextAt assets.headlines index text }
  | AssetEvent.editDescription index text =>
      { assets with
        descriptions := setTextAt assets.descriptions index text }

/-- A sequence of interactions, all through enabled rendered controls, that
drives the headline count of the Performance Max asset step below 3:
add two headlines (ids `headlines4`, `headlines5`), delete `headlines4`,
add again (the new id is computed from the length and collides with the
existing `headlines5`), delete `h1`, then delete `headlines5` — which
removes both assets carrying that id at once. -/
def duplicateIdAssetEvents : List AssetEvent :=
  [ AssetEvent.addHeadline
  , AssetEvent.addHeadline
  , AssetEvent.removeHeadline "headlines4"
  , AssetEvent.addHeadline
  , AssetEvent.removeHeadline "h1"
  , AssetEvent.removeHeadline "headlines5" ]

/-- The product-list state of the MerchantFeedDashboard component, as far
as the pagination claims read it. -/
structure ProductsPageState where
  page : Nat
  selectedMerchant : String
  productFilter : String
deriving DecidableEq, Repr

/-- The initial state: `useState(1)` for the page, `useState('')` for the
selected merchant, `useState('all')` for the product filter. -/
def initialProductsPage : ProductsPageState :=
  ⟨1, "", "all"⟩

/-- A user interaction with the product-list pagination of the
MerchantFeedDashboard: the Previous and Next buttons (the latter carrying
whether the current response reports more pages), switching the merchant
account, and changing the product status filter. -/
inductive PageEvent where
  | clickPrevious
  | clickNext (hasMore : Bool)
  | merchantChange (merchantId : String)
  | filterChange (statusValue : String)
deriving DecidableEq, Repr

/-- One pagination interaction applied to the state.  Previous is disabled
at page 1 and otherwise sets `Math.max(1, p - 1)`; Next is disabled unless
the response reports `hasMore` and otherwise sets `p + 1`;
`handleMerchantChange` and the filter `onChange` set their field and reset
the page to 1. -/
def pageStep (s : ProductsPageState) (e : PageEvent) : ProductsPageState :=
  match e with
  | PageEvent.clickPrevious =>
      if s.page = 1 then s else { s with page := max 1 (s.page - 1) }
  | PageEvent.clickNext hasMore =>
      if hasMore then { s with page := s.page + 1 } else s
  | PageEvent.merchantChange merchantId =>
      { s with selectedMerchant := merchantId, page := 1 }
  | PageEvent.filterChange statusValue =>
      { s with productFilter := statusValue, page := 1 }

/-- A concrete Performance Max form whose name, merchant account, budget
and target ROAS are all valid but whose final URL has been cleared. -/
def pmaxFormEmptyFinalUrl : PMaxFormData :=
  { campaignName := "Summer PMax"
    merchantAccount := "merchant1"
    budget := 50
    bidStrategy := "MAXIMIZE_CONVERSION_VALUE"
    targetRoas := 400
    finalUrl := ""
    trackingTemplate := ""
    countries := ["United States"]
    languages := ["en"]
    conversionGoals := ["conv1"]
    assets := defaultAssets
    interests := []
    demographics := []
    remarketing := ["Website visitors - Last 30 days"]
    finalUrlSuffix := ""
    createAssetGroup := true }

/-- The same concrete Performance Max form with the default final URL. -/
def pmaxFormFilled : PMaxFormData :=
  { pmaxFormEmptyFinalUrl with finalUrl := "https://www.example.com/shop" }

/-- A concrete shopping form that passes the step-0 validation. -/
def shoppingFormFilled : ShoppingFormData :=
  { campaignName := "Summer Shopping"
    merchantAccount := "merchant1"
    budget := 50
    bidStrategy := "MAXIMIZE_CONVERSION_VALUE"
    targetRoas := 400
    productSelection := "ALL_PRODUCTS"
    productGroups := []
    excludedProductGroups := []
    countries := ["United States"]
    languages := ["en"]
    inventoryFilter := true
    includeGoogle := true
    includeSearch := true
    includeYouTube := false
    includeDisplay := false
    enableLocalInventory := false
    campaignPriority := "MEDIUM" }

/-- The same concrete shopping form with the campaign name cleared, which
fails the step-0 validation. -/
def shoppingFormUnnamed : ShoppingFormData :=
  { shoppingFormFilled with campaignName := "" }

end Echelon

/-- C5: for every outbound request, the request interceptor of api.js sets the
Authorization header to `Bearer ` followed by the stored token exactly when a
token is present in local storage, leaving method, url, Content-Type and the
retry flag unchanged; with no stored token the config is returned unchanged. -/
theorem C5_request_interceptor_bearer (tok : Option String)
    (config : Echelon.AxiosConfig) :
    (∀ t, tok = some t →
      Echelon.requestInterceptorFulfilled tok config =
        { config with
          headers := { config.headers with
                       authorization := some ("Bearer " ++ t) } }) ∧
    (tok = none → Echelon.requestInterceptorFulfilled tok config = config) := by
  constructor
  · intro t ht
    subst ht
    rfl
  · intro h
    subst h
    rfl

/-- C5 witness: the interceptor evaluated at a concrete token and at an empty
store, at a concrete config. -/
theorem C5_request_interceptor_bearer_witness :
    Echelon.requestInterceptorFulfilled (some "tok0")
        ⟨Echelon.Method.get, "/campaigns", ⟨some "application/json", none⟩, false⟩ =
      ⟨Echelon.Method.get, "/campaigns",
        ⟨some "application/json", some ("Bearer " ++ "tok0")⟩, false⟩ ∧
    Echelon.requestInterceptorFulfilled none
        ⟨Echelon.Method.get, "/campaigns", ⟨some "application/json", none⟩, false⟩ =
      ⟨Echelon.Method.get, "/campaigns", ⟨some "application/json", none⟩, false⟩ := by
  constructor
  · exact (C5_request_interceptor_bearer (some "tok0")
      ⟨Echelon.Method.get, "/campaigns", ⟨some "application/json", none⟩, false⟩).1
      "tok0" rfl
  · exact (C5_request_interceptor_bearer none
      ⟨Echelon.Method.get, "/campaigns", ⟨some "application/json", none⟩, false⟩).2 rfl

/-- C1: on a 401 whose request is not yet marked retried, the api.js response
interceptor marks the request retried, and when a refresh token is stored it
posts it to /auth/refresh; on success it stores the returned access token,
sets the original request's Authorization header to `Bearer ` plus the new
token and re-issues the original request; and any 401 arriving for a request
already marked retried (in particular the re-issued one) is rejected to the
caller, not retried again. -/
theorem C1_retry_on_401_with_refresh (store : Echelon.Store)
    (error : Echelon.ApiError) (rt tok : String)
    (h401 : error.status = some 401) (hretry : error.config.retry = false)
    (hrt : store.refreshToken = some rt) :
    (Echelon.responseInterceptorRejected store (Except.ok tok) error =
      { store := { store with authToken := some tok }
        redirectedToLogin := false
        refreshCall := some (⟨Echelon.Method.post, "/auth/refresh"⟩, rt)
        result := Echelon.InterceptResult.resend
          (Echelon.retriedConfig error.config tok) }) ∧
    (∀ (store2 : Echelon.Store) (ro2 : Except Unit String)
        (error2 : Echelon.ApiError),
      error2.status = some 401 →
      error2.config = Echelon.retriedConfig error.config tok →
      Echelon.responseInterceptorRejected store2 ro2 error2 =
        { store := store2
          redirectedToLogin := false
          refreshCall := none
          result := Echelon.InterceptResult.reject error2 }) := by
  constructor
  · simp [Echelon.responseInterceptorRejected, h401, hretry, hrt,
      Echelon.authRefreshCall, Echelon.retriedConfig]
  · intro store2 ro2 error2 h2 hcfg
    have hr2 : error2.config.retry = true := by
      rw [hcfg]
      rfl
    simp [Echelon.responseInterceptorRejected, h2, hr2]

/-- C1 witness: the interceptor applied to a concrete 401 error with a stored
refresh token and a successful refresh, and then to the concrete 401 of the
re-issued request. -/
theorem C1_retry_on_401_with_refresh_witness :
    (Echelon.responseInterceptorRejected ⟨some "old", some "rt0"⟩
        (Except.ok "new")
        ⟨some 401, ⟨Echelon.Method.get, "/campaigns",
          ⟨some "application/json", some "Bearer old"⟩, false⟩⟩ =
      { store := ⟨some "new", some "rt0"⟩
        redirectedToLogin := false
        refreshCall := some (⟨Echelon.Method.post, "/auth/refresh"⟩, "rt0")
        result := Echelon.InterceptResult.resend
          ⟨Echelon.Method.get, "/campaigns",
            ⟨some "application/json", some ("Bearer " ++ "new")⟩, true⟩ }) ∧
    (Echelon.responseInterceptorRejected ⟨some "new", some "rt0"⟩
        (Except.ok "new2")
        ⟨some 401, ⟨Echelon.Method.get, "/campaigns",
          ⟨some "application/json", some ("Bearer " ++ "new")⟩, true⟩⟩ =
      { store := ⟨some "new", some "rt0"⟩
        redirectedToLogin := false
        refreshCall := none
        result := Echelon.InterceptResult.reject
          ⟨some 401, ⟨Echelon.Method.get, "/campaigns",
            ⟨some "application/json", some ("Bearer " ++ "new")⟩, true⟩⟩ }) := by
  have h := C1_retry_on_401_with_refresh ⟨some "old", some "rt0"⟩
    ⟨some 401, ⟨Echelon.Method.get, "/campaigns",
      ⟨some "application/json", some "Bearer old"⟩, false⟩⟩
    "rt0" "new" rfl rfl rfl
  refine ⟨h.1, ?_⟩
  have h2 := h.2 ⟨some "new", some "rt0"⟩ (Except.ok "new2")
    ⟨some 401, ⟨Echelon.Method.get, "/campaigns",
      ⟨some "application/json", some ("Bearer " ++ "new")⟩, true⟩⟩
    rfl rfl
  exact h2

/-- C4 counterexample: the campaign update wrapper of api.js is part of the
documented campaigns surface and uses PUT, neither GET nor POST. -/
theorem C4_counterexample_put_request :
    Echelon.api_js.campaigns.updateCampaign "c1" ∈
        Echelon.serviceRequests "a1" "c1" "m1" 1 50 none ∧
    ¬ ((Echelon.api_js.campaigns.updateCampaign "c1").method =
          Echelon.Method.get ∨
        (Echelon.api_js.campaigns.updateCampaign "c1").method =
          Echelon.Method.post) := by
  constructor
  · simp [Echelon.serviceRequests]
  · decide

/-- C4 amended: every request the service layers issue against the documented
REST surface for accounts, campaigns, recommendations and merchant feeds uses
GET or POST, except the campaign mutation wrappers: update, pause and enable
use PUT, delete uses DELETE, and the part_006 status update uses PATCH. -/
theorem C4_service_requests_methods (accountId campaignId merchantId : String)
    (page limit : Nat) (status : Option String) :
    ∀ r ∈ Echelon.serviceRequests accountId campaignId merchantId
        page limit status,
      r.method = Echelon.Method.get ∨ r.method = Echelon.Method.post ∨
        r ∈ Echelon.nonGetPostRequests accountId campaignId := by
  intro r hr
  fin_cases hr <;>
    first
      | exact Or.inl rfl
      | exact Or.inr (Or.inl rfl)
      | (cases status <;> exact Or.inl rfl)
      | (right; right; simp [Echelon.nonGetPostRequests])

/-- C4 witness: the amended theorem applied to the concrete GET request of the
campaign list wrapper. -/
theorem C4_service_requests_methods_witness :
    (Echelon.api_js.campaigns.getAllCampaigns "a1").method =
        Echelon.Method.get ∨
      (Echelon.api_js.campaigns.getAllCampaigns "a1").method =
        Echelon.Method.post ∨
      Echelon.api_js.campaigns.getAllCampaigns "a1" ∈
        Echelon.nonGetPostRequests "a1" "c1" :=
  C4_service_requests_methods "a1" "c1" "m1" 1 50 none
    (Echelon.api_js.campaigns.getAllCampaigns "a1")
    (List.mem_cons_self _ _)

/-- C3 counterexample: the campaign delete wrapper is an interaction of the
frontend with the Campaign entity and is not a read-only GET request. -/
theorem C3_counterexample_mutating_request :
    Echelon.api_js.campaigns.deleteCampaign "c1" ∈
        Echelon.entityRequests "a1" "c1" "m1" "g1" "s1" "2023-01-01"
          "2023-01-31" "revenue" 1 50 none ∧
    ¬ (Echelon.api_js.campaigns.deleteCampaign "c1").method =
        Echelon.Method.get := by
  constructor
  · simp [Echelon.entityRequests]
  · decide

/-- C3 amended: the frontend holds domain entities only in client-side query
caches for display, but its service layers do issue mutating requests against
them: campaign create (including shopping and Performance Max creation),
update, delete, pause, enable and status update, ad-group create, update and
delete, recommendation/suggestion apply and dismiss, and feed upload; every
other service request against these entities is a read-only GET. -/
theorem C3_read_only_except_mutations (accountId campaignId merchantId
    adGroupId suggestionId startDate endDate metric : String)
    (page limit : Nat) (status : Option String) :
    ∀ r ∈ Echelon.entityRequests accountId campaignId merchantId adGroupId
        suggestionId startDate endDate metric page limit status,
      r.method = Echelon.Method.get ∨
        r ∈ Echelon.entityMutatingRequests accountId campaignId merchantId
          adGroupId suggestionId := by
  intro r hr
  fin_cases hr <;>
    first
      | exact Or.inl rfl
      | (cases status <;> exact Or.inl rfl)
      | (right; simp [Echelon.entityMutatingRequests])

/-- C3 witness: the amended theorem applied to the concrete campaign detail
GET request. -/
theorem C3_read_only_except_mutations_witness :
    (Echelon.api_js.campaigns.getCampaign "c1").method = Echelon.Method.get ∨
      Echelon.api_js.campaigns.getCampaign "c1" ∈
        Echelon.entityMutatingRequests "a1" "c1" "m1" "g1" "s1" :=
  C3_read_only_except_mutations "a1" "c1" "m1" "g1" "s1" "2023-01-01"
    "2023-01-31" "revenue" 1 50 none
    (Echelon.api_js.campaigns.getCampaign "c1")
    (List.mem_cons_of_mem _ (List.mem_cons_self _ _))

/-- C6 counterexample: for a 401 that was never retried but for which no
refresh token is stored, the interceptor does not reject the original error
object unchanged: it has already set the retry mark on the error's config
before discovering that no refresh token exists. -/
theorem C6_counterexample_error_mutated :
    (Echelon.responseInterceptorRejected ⟨some "old", none⟩
        (Except.error ())
        ⟨some 401, ⟨Echelon.Method.get, "/campaigns",
          ⟨some "application/json", some "Bearer old"⟩, false⟩⟩).result ≠
      Echelon.InterceptResult.reject
        ⟨some 401, ⟨Echelon.Method.get, "/campaigns",
          ⟨some "application/json", some "Bearer old"⟩, false⟩⟩ := by
  decide

/-- C6 amended: upstream HTTP error codes are surfaced.  For every failed
response whose status is not 401, and for every 401 already marked retried,
the response interceptor rejects with the original error unchanged, touching
neither local storage nor the location; for a 401 not yet retried with no
stored refresh token it rejects with the original error whose config has
been marked retried, all other fields unchanged; and the Recommendations
page renders an error alert whenever its query fails. -/
theorem C6_errors_surfaced (store : Echelon.Store)
    (ro : Except Unit String) (error : Echelon.ApiError) :
    (¬ error.status = some 401 →
      Echelon.responseInterceptorRejected store ro error =
        ⟨store, false, none, Echelon.InterceptResult.reject error⟩) ∧
    (error.config.retry = true →
      Echelon.responseInterceptorRejected store ro error =
        ⟨store, false, none, Echelon.InterceptResult.reject error⟩) ∧
    (error.status = some 401 → error.config.retry = false →
      store.refreshToken = none →
      Echelon.responseInterceptorRejected store ro error =
        ⟨store, false, none,
          Echelon.InterceptResult.reject
            { error with config := { error.config with retry := true } }⟩) ∧
    (∀ message : String,
      Echelon.renderRecommendations false (some message) =
        Echelon.RecommendationsView.errorAlert
          ("Error loading recommendations: " ++ message)) := by
  refine ⟨?_, ?_, ?_, ?_⟩
  · intro h
    simp [Echelon.responseInterceptorRejected, h]
  · intro h
    simp [Echelon.responseInterceptorRejected, h]
  · intro h401 hretry hrt
    simp [Echelon.responseInterceptorRejected, h401, hretry, hrt]
  · intro message
    rfl

/-- C6 witness: the amended theorem applied to a concrete 500 error, to a
concrete already-retried 401, to a concrete 401 with no stored refresh
token, and to a concrete failed query message. -/
theorem C6_errors_surfaced_witness :
    (Echelon.responseInterceptorRejected ⟨some "t", some "r"⟩
        (Except.error ())
        ⟨some 500, ⟨Echelon.Method.get, "/merchants",
          ⟨some "application/json", none⟩, false⟩⟩ =
      ⟨⟨some "t", some "r"⟩, false, none,
        Echelon.InterceptResult.reject
          ⟨some 500, ⟨Echelon.Method.get, "/merchants",
            ⟨some "application/json", none⟩, false⟩⟩⟩) ∧
    (Echelon.responseInterceptorRejected ⟨some "t", some "r"⟩
        (Except.error ())
        ⟨some 401, ⟨Echelon.Method.get, "/merchants",
          ⟨some "application/json", none⟩, true⟩⟩ =
      ⟨⟨some "t", some "r"⟩, false, none,
        Echelon.InterceptResult.reject
          ⟨some 401, ⟨Echelon.Method.get, "/merchants",
            ⟨some "application/json", none⟩, true⟩⟩⟩) ∧
    (Echelon.responseInterceptorRejected ⟨some "t", none⟩
        (Except.error ())
        ⟨some 401, ⟨Echelon.Method.get, "/merchants",
          ⟨some "application/json", none⟩, false⟩⟩ =
      ⟨⟨some "t", none⟩, false, none,
        Echelon.InterceptResult.reject
          ⟨some 401, ⟨Echelon.Method.get, "/merchants",
            ⟨some "application/json", none⟩, true⟩⟩⟩) ∧
    (Echelon.renderRecommendations false (some "Request failed") =
      Echelon.RecommendationsView.errorAlert
        ("Error loading recommendations: " ++ "Request failed")) := by
  refine ⟨?_, ?_, ?_, ?_⟩
  · exact (C6_errors_surfaced ⟨some "t", some "r"⟩ (Except.error ())
      ⟨some 500, ⟨Echelon.Method.get, "/merchants",
        ⟨some "application/json", none⟩, false⟩⟩).1 (by decide)
  · exact (C6_errors_surfaced ⟨some "t", some "r"⟩ (Except.error ())
      ⟨some 401, ⟨Echelon.Method.get, "/merchants",
        ⟨some "application/json", none⟩, true⟩⟩).2.1 rfl
  · exact (C6_errors_surfaced ⟨some "t", none⟩ (Except.error ())
      ⟨some 401, ⟨Echelon.Method.get, "/merchants",
        ⟨some "application/json", none⟩, false⟩⟩).2.2.1 rfl rfl rfl
  · exact (C6_errors_surfaced ⟨some "t", none⟩ (Except.error ())
      ⟨some 401, ⟨Echelon.Method.get, "/merchants",
        ⟨some "application/json", none⟩, false⟩⟩).2.2.2 "Request failed"

/-- C2: the campaign-details and dashboard pages render simulated data that
does not depend on any server response: for every campaign id the
campaign-details page sets the same fixed campaign record (name `Summer Sale
Campaign 2023`, status ENABLED, budget 500.00, three ad groups, three
recommendations), differing only in the id field, and for every selected
account the dashboard page sets the one fixed data object (accountHealth 82,
totalCampaigns 12, four top products, four campaign rows). -/
theorem C2_simulated_data (primaryMain secondaryMain : String)
    (campaignId otherId account : String) :
    Echelon.fetchCampaignDetails primaryMain secondaryMain campaignId =
      { Echelon.fetchCampaignDetails primaryMain secondaryMain otherId with
        id := campaignId } ∧
    (Echelon.fetchCampaignDetails primaryMain secondaryMain campaignId).name =
      "Summer Sale Campaign 2023" ∧
    (Echelon.fetchCampaignDetails primaryMain secondaryMain campaignId).status =
      "ENABLED" ∧
    (Echelon.fetchCampaignDetails primaryMain secondaryMain campaignId).budget =
      500 ∧
    (Echelon.fetchCampaignDetails primaryMain secondaryMain
      campaignId).adGroups.length = 3 ∧
    (Echelon.fetchCampaignDetails primaryMain secondaryMain
      campaignId).recommendations.length = 3 ∧
    Echelon.dashboardStateAfterLoad (some account) =
      some Echelon.fetchDashboardData ∧
    Echelon.fetchDashboardData.accountHealth = 82 ∧
    Echelon.fetchDashboardData.totalCampaigns = 12 ∧
    Echelon.fetchDashboardData.topProducts.length = 4 ∧
    Echelon.fetchDashboardData.campaignPerformance.length = 4 :=
  ⟨rfl, rfl, rfl, rfl, rfl, rfl, rfl, rfl, rfl, rfl, rfl⟩

/-- C7 counterexample: in the Performance Max wizard a form with a non-empty
campaign name and merchant account, positive budget and a target ROAS of 400
under MAXIMIZE_CONVERSION_VALUE still fails validateStep(0) when its final
URL is empty, so the stated iff does not hold for that wizard. -/
theorem C7_counterexample_final_url :
    (Echelon.pmaxFormEmptyFinalUrl.campaignName ≠ "" ∧
      Echelon.pmaxFormEmptyFinalUrl.merchantAccount ≠ "" ∧
      0 < Echelon.pmaxFormEmptyFinalUrl.budget ∧
      (Echelon.pmaxFormEmptyFinalUrl.bidStrategy =
          "MAXIMIZE_CONVERSION_VALUE" →
        100 ≤ Echelon.pmaxFormEmptyFinalUrl.targetRoas ∧
          Echelon.pmaxFormEmptyFinalUrl.targetRoas ≤ 10000)) ∧
    Echelon.pmaxValidateStep Echelon.pmaxFormEmptyFinalUrl 0 = false := by
  decide

/-- C7 amended: in the shopping wizard validateStep(0) succeeds (returns true
with an empty errors object) iff the campaign name and merchant account are
non-empty, the budget is positive, and under MAXIMIZE_CONVERSION_VALUE the
target ROAS lies in [100, 10000]; in the Performance Max wizard the same
holds with the additional requirement of a non-empty final URL; and in both
wizards handleNext increments the active step by exactly one when
validateStep of the current step succeeds and leaves it unchanged
otherwise. -/
theorem C7_validate_step_zero (sform : Echelon.ShoppingFormData)
    (pform : Echelon.PMaxFormData) (step : Nat) :
    ((Echelon.shoppingValidateStep sform 0 = true ∧
        Echelon.shoppingStepErrors sform 0 = []) ↔
      (sform.campaignName ≠ "" ∧ sform.merchantAccount ≠ "" ∧
        0 < sform.budget ∧
        (sform.bidStrategy = "MAXIMIZE_CONVERSION_VALUE" →
          100 ≤ sform.targetRoas ∧ sform.targetRoas ≤ 10000))) ∧
    ((Echelon.pmaxValidateStep pform 0 = true ∧
        Echelon.pmaxStepErrors pform 0 = []) ↔
      (pform.campaignName ≠ "" ∧ pform.merchantAccount ≠ "" ∧
        0 < pform.budget ∧
        (pform.bidStrategy = "MAXIMIZE_CONVERSION_VALUE" →
          100 ≤ pform.targetRoas ∧ pform.targetRoas ≤ 10000) ∧
        pform.finalUrl ≠ "")) ∧
    (Echelon.shoppingValidateStep sform step = true →
      Echelon.shoppingHandleNext sform step = step + 1) ∧
    (Echelon.shoppingValidateStep sform step = false →
      Echelon.shoppingHandleNext sform step = step) ∧
    (Echelon.pmaxValidateStep pform step = true →
      Echelon.pmaxHandleNext pform step = step + 1) ∧
    (Echelon.pmaxValidateStep pform step = false →
      Echelon.pmaxHandleNext pform step = step) := by
  refine ⟨?_, ?_, ?_, ?_, ?_, ?_⟩
  · simp [Echelon.shoppingValidateStep, Echelon.shoppingStepErrors,
      List.isEmpty_iff, List.append_eq_nil, ite_eq_right_iff, not_or, not_lt]
  · simp [Echelon.pmaxValidateStep, Echelon.pmaxStepErrors,
      List.isEmpty_iff, List.append_eq_nil, ite_eq_right_iff, not_or, not_lt]
  · intro h
    simp [Echelon.shoppingHandleNext, h]
  · intro h
    simp [Echelon.shoppingHandleNext, h]
  · intro h
    simp [Echelon.pmaxHandleNext, h]
  · intro h
    simp [Echelon.pmaxHandleNext, h]

/-- C7 witness: handleNext applied to concrete valid and invalid forms of
both wizards at step 0. -/
theorem C7_validate_step_zero_witness :
    Echelon.shoppingHandleNext Echelon.shoppingFormFilled 0 = 1 ∧
    Echelon.shoppingHandleNext Echelon.shoppingFormUnnamed 0 = 0 ∧
    Echelon.pmaxHandleNext Echelon.pmaxFormFilled 0 = 1 ∧
    Echelon.pmaxHandleNext Echelon.pmaxFormEmptyFinalUrl 0 = 0 := by
  refine ⟨?_, ?_, ?_, ?_⟩
  · exact (C7_validate_step_zero Echelon.shoppingFormFilled
      Echelon.pmaxFormFilled 0).2.2.1 (by decide)
  · exact (C7_validate_step_zero Echelon.shoppingFormUnnamed
      Echelon.pmaxFormFilled 0).2.2.2.1 (by decide)
  · exact (C7_validate_step_zero Echelon.shoppingFormFilled
      Echelon.pmaxFormFilled 0).2.2.2.2.1 (by decide)
  · exact (C7_validate_step_zero Echelon.shoppingFormFilled
      Echelon.pmaxFormEmptyFinalUrl 0).2.2.2.2.2 (by decide)

/-- C8: evaluation of the asset handlers at the failing interaction
sequence.  Starting from the default assets (3 headlines), the sequence
`duplicateIdAssetEvents` — every step of which goes through an enabled
rendered control — ends with only the 2 headlines `h2` and `h3`: `addAsset`
derives ids from the list length, so after a removal a newly added headline
reuses the id `headlines5`, and `removeAsset` then filters out both assets
carrying that id at once, dropping the count below the minimum of 3 that
the disabled-delete guards are meant to preserve. -/
theorem C8_duplicate_id_breaks_minimum :
    Echelon.defaultAssets.headlines.length = 3 ∧
    (Echelon.duplicateIdAssetEvents.foldl Echelon.assetStep
        Echelon.defaultAssets).headlines.map Echelon.TextAsset.id =
      ["h2", "h3"] ∧
    (Echelon.duplicateIdAssetEvents.foldl Echelon.assetStep
        Echelon.defaultAssets).headlines.length = 2 := by
  decide

/-- One pagination interaction keeps the page at least 1. -/
theorem pageStep_page_pos (s : Echelon.ProductsPageState)
    (e : Echelon.PageEvent) (h : 1 ≤ s.page) :
    1 ≤ (Echelon.pageStep s e).page := by
  cases e with
  | clickPrevious =>
      by_cases h1 : s.page = 1
      · simp [Echelon.pageStep, h1]
      · simp [Echelon.pageStep, h1]
  | clickNext hasMore =>
      cases hasMore
      · simp [Echelon.pageStep]
        exact h
      · simp [Echelon.pageStep]
  | merchantChange merchantId => simp [Echelon.pageStep]
  | filterChange statusValue => simp [Echelon.pageStep]

/-- Folding pagination interactions keeps the page at least 1. -/
theorem foldl_pageStep_page_pos (events : List Echelon.PageEvent)
    (s : Echelon.ProductsPageState) (h : 1 ≤ s.page) :
    1 ≤ (events.foldl Echelon.pageStep s).page := by
  induction events generalizing s with
  | nil => exact h
  | cons e rest ih => exact ih _ (pageStep_page_pos s e h)

/-- C9: the product-list page number is initialized to 1 and stays at least
1 under every sequence of pagination interactions; the Previous button is a
no-op at page 1 and otherwise decrements with a floor of 1 via
`Math.max(1, p - 1)`; the Next button increments the page exactly when the
current response reports more pages; and both switching the merchant
account and changing the product status filter reset the page to 1. -/
theorem C9_page_at_least_one (events : List Echelon.PageEvent)
    (s : Echelon.ProductsPageState) (merchantId statusValue : String) :
    Echelon.initialProductsPage.page = 1 ∧
    1 ≤ (events.foldl Echelon.pageStep Echelon.initialProductsPage).page ∧
    (s.page = 1 → Echelon.pageStep s Echelon.PageEvent.clickPrevious = s) ∧
    (1 < s.page →
      Echelon.pageStep s Echelon.PageEvent.clickPrevious =
          { s with page := max 1 (s.page - 1) } ∧
        max 1 (s.page - 1) = s.page - 1) ∧
    (Echelon.pageStep s (Echelon.PageEvent.clickNext true) =
      { s with page := s.page + 1 }) ∧
    (Echelon.pageStep s (Echelon.PageEvent.clickNext false) = s) ∧
    (Echelon.pageStep s (Echelon.PageEvent.merchantChange merchantId) =
      { s with selectedMerchant := merchantId, page := 1 }) ∧
    (Echelon.pageStep s (Echelon.PageEvent.filterChange statusValue) =
      { s with productFilter := statusValue, page := 1 }) := by
  refine ⟨rfl, foldl_pageStep_page_pos events Echelon.initialProductsPage
    (le_refl 1), ?_, ?_, rfl, rfl, rfl, rfl⟩
  · intro h
    simp [Echelon.pageStep, h]
  · intro h
    have hne : ¬ s.page = 1 := by omega
    constructor
    · simp [Echelon.pageStep, hne]
    · omega

/-- C9 witness: the Previous button evaluated at a concrete state with page
1 (disabled, state unchanged) and at a concrete state with page 3
(decrement to `max 1 (3 - 1)`, which equals `3 - 1`). -/
theorem C9_page_at_least_one_witness :
    (Echelon.pageStep ⟨1, "m1", "all"⟩ Echelon.PageEvent.clickPrevious =
      ⟨1, "m1", "all"⟩) ∧
    (Echelon.pageStep ⟨3, "m1", "all"⟩ Echelon.PageEvent.clickPrevious =
        { (⟨3, "m1", "all"⟩ : Echelon.ProductsPageState) with
          page := max 1 (3 - 1) } ∧
      max 1 (3 - 1) = 3 - 1) :=
  ⟨(C9_page_at_least_one [] ⟨1, "m1", "all"⟩ "m" "f").2.2.1 rfl,
   (C9_page_at_least_one [] ⟨3, "m1", "all"⟩ "m" "f").2.2.2.1 (by decide)⟩
